import Mathlib

/-
Verification of the tag telemetry ingestion pipeline:
the beacon parser (src/paser.py), the tag state store (src/db.py) and the
socket listener loop (src/api.py).

Python strings are modelled as `List Char` so that every operation is a
structural recursion the kernel can evaluate on concrete inputs.
-/

set_option autoImplicit false

abbrev PyStr := List Char

/-- Python `str.strip()`: drop leading and trailing whitespace.
(Python also strips a few rarer whitespace code points such as `\x0b`;
the beacons here only ever carry space, tab, CR and LF.) -/
def pyStrip (s : PyStr) : PyStr :=
  ((s.dropWhile Char.isWhitespace).reverse.dropWhile Char.isWhitespace).reverse

/-- Value of a decimal digit string, as computed by Python `int` on a string
matching `\d+`. (`\d` in Python also matches non-ASCII decimal digits; the
wire format and every input considered here is ASCII.) -/
def digitsToNat (s : PyStr) : Nat :=
  s.foldl (fun acc c => acc * 10 + (c.toNat - '0'.toNat)) 0

/-- The character class `[a-fA-F0-9]` of `TAG_PATTERN` (src/paser.py line 45). -/
def isHexChar (c : Char) : Bool :=
  c.isDigit || ('a' ≤ c && c ≤ 'f') || ('A' ≤ c && c ≤ 'F')

/-- The character class `[a-zA-Z0-9]` used by flexible-mode tag-id validation
(src/paser.py line 138). -/
def isAsciiAlnum (c : Char) : Bool :=
  c.isAlpha || c.isDigit

/-- Python `str.split(',')` restricted to single-character separator:
splits into the (possibly empty) groups between commas. -/
def splitOnComma (s : PyStr) : List PyStr :=
  match s with
  | [] => [[]]
  | c :: rest =>
    let r := splitOnComma rest
    if c = ',' then [] :: r
    else
      match r with
      | [] => [[c]]
      | g :: gs => (c :: g) :: gs

/-- The shape `\d{14}\.\d{3}` of the timestamp group in `TAG_PATTERN`
(src/paser.py line 45) and of the strict-mode timestamp check
(src/paser.py line 147). -/
def tsShape (s : PyStr) : Bool :=
  (s.take 14).all Char.isDigit && s.length == 18 &&
    (match s.drop 14 with
     | '.' :: ds => ds.all Char.isDigit
     | _ => false)

/-- `TagParser.TAG_PATTERN = ^TAG,([a-fA-F0-9]+),(\d+),(\d{14}\.\d{3})$`
(src/paser.py lines 44-46), as the match of the whole (already stripped)
line. None of the three capture groups can contain a comma, so the regex
matches exactly when splitting on commas yields the literal `TAG` followed
by three groups of the required shapes. -/
def tagPatternMatch (s : PyStr) : Option (PyStr × PyStr × PyStr) :=
  match splitOnComma s with
  | [p, g1, g2, g3] =>
    if p = "TAG".data ∧ g1 ≠ [] ∧ g1.all isHexChar ∧
        g2 ≠ [] ∧ g2.all Char.isDigit ∧ tsShape g3 then
      some (g1, g2, g3)
    else none
  | _ => none

/-- `int(cnt_str)` with the defensive `cnt < 0` check
(src/paser.py lines 88-95). `cnt_str` comes from the `\d+` group, so `int`
cannot fail and the negative check never fires; the code keeps both
defensively and we model them faithfully. -/
def validateCnt (cnt_str : PyStr) : Option Int :=
  let cnt : Int := (digitsToNat cnt_str : Int)
  if cnt < 0 then none else some cnt

/-- `TagParser._validate_tag_id` (src/paser.py lines 129-138). -/
def validateTagId (strict_mode : Bool) (tag_id : PyStr) : Bool :=
  if tag_id.isEmpty then false
  else if strict_mode then
    decide (8 ≤ tag_id.length) && decide (tag_id.length ≤ 16) && tag_id.all isHexChar
  else
    decide (4 ≤ tag_id.length) && decide (tag_id.length ≤ 32) && tag_id.all isAsciiAlnum

/-- `year % 4 == 0 and (year % 100 != 0 or year % 400 == 0)`, the Gregorian
leap-year rule used by `datetime`. -/
def isLeapYear (y : Nat) : Bool :=
  y % 4 == 0 && (y % 100 != 0 || y % 400 == 0)

/-- Number of days in a month, as enforced by `datetime`. -/
def daysInMonth (y m : Nat) : Nat :=
  if m = 2 then (if isLeapYear y then 29 else 28)
  else if m = 4 ∨ m = 6 ∨ m = 9 ∨ m = 11 then 30
  else 31

/-- Models `datetime.strptime(date_part, "%Y%m%d%H%M%S")` succeeding on a
14-digit string (src/paser.py line 152): the only full-width split of 14
digits is 4/2/2/2/2/2, and constructing the `datetime` enforces
year 1..9999, a valid calendar day, hour ≤ 23, minute ≤ 59, second ≤ 59. -/
def strptimeYmdHms (s : PyStr) : Bool :=
  let y := digitsToNat (s.take 4)
  let mo := digitsToNat ((s.drop 4).take 2)
  let d := digitsToNat ((s.drop 6).take 2)
  let h := digitsToNat ((s.drop 8).take 2)
  let mi := digitsToNat ((s.drop 10).take 2)
  let sec := digitsToNat ((s.drop 12).take 2)
  decide (1 ≤ y) && decide (y ≤ 9999) &&
    decide (1 ≤ mo) && decide (mo ≤ 12) &&
    decide (1 ≤ d) && decide (d ≤ daysInMonth y mo) &&
    decide (h ≤ 23) && decide (mi ≤ 59) && decide (sec ≤ 59)

/-- `TagParser._validate_timestamp` (src/paser.py lines 140-158). -/
def validateTimestamp (strict_mode : Bool) (timestamp : PyStr) : Bool :=
  if timestamp.isEmpty then false
  else if strict_mode then
    tsShape timestamp && strptimeYmdHms (timestamp.take 14)
  else
    decide (0 < (pyStrip timestamp).length)

/-- The `self.stats` dictionary of `TagParser` (src/paser.py lines 56-61). -/
structure ParserStats where
  total_parsed : Nat
  successful_parses : Nat
  failed_parses : Nat
  validation_errors : Nat
deriving DecidableEq

/-- The `TagData` dataclass (src/paser.py lines 17-24). The `parsed_at`
field, a wall-clock instant taken inside the parser, is not modelled. -/
structure TagData where
  tag_id : PyStr
  cnt : Int
  timestamp : PyStr
  raw_data : PyStr
deriving DecidableEq

/-- The `TagParser` object: the construction-time mode flag and the running
statistics (src/paser.py lines 48-61). -/
structure TagParser where
  strict_mode : Bool
  stats : ParserStats
deriving DecidableEq

/-- `TagParser.__init__` (src/paser.py lines 48-61): all counters start at 0. -/
def TagParser.init (strict_mode : Bool) : TagParser :=
  ⟨strict_mode, ⟨0, 0, 0, 0⟩⟩

/-- `TagParser.parse_tag_data` (src/paser.py lines 63-127). Returns the
parse result together with the parser carrying the updated stats. The
model is pure, so the `except` branch (line 124), reachable in Python only
through a failure inside logging or `datetime.now`, does not arise. -/
def parse_tag_data (p : TagParser) (raw_data : PyStr) : Option TagData × TagParser :=
  let data := pyStrip raw_data
  let s0 := { p.stats with total_parsed := p.stats.total_parsed + 1 }
  match tagPatternMatch data with
  | none =>
      (none, { p with stats := { s0 with failed_parses := s0.failed_parses + 1 } })
  | some (tag_id, cnt_str, timestamp) =>
      match validateCnt cnt_str with
      | none =>
          (none, { p with stats := { s0 with validation_errors := s0.validation_errors + 1 } })
      | some cnt =>
          if ! validateTagId p.strict_mode tag_id then
            (none, { p with stats := { s0 with validation_errors := s0.validation_errors + 1 } })
          else if p.strict_mode && ! validateTimestamp p.strict_mode timestamp then
            (none, { p with stats := { s0 with validation_errors := s0.validation_errors + 1 } })
          else
            (some ⟨tag_id, cnt, timestamp, data⟩,
             { p with stats := { s0 with successful_parses := s0.successful_parses + 1 } })

/-- `TagParser.reset_stats` (src/paser.py lines 193-201). -/
def reset_stats (p : TagParser) : TagParser :=
  { p with stats := ⟨0, 0, 0, 0⟩ }

/-- A row of the `registered_tags` table (src/db.py lines 28-34). -/
structure RegisteredTag where
  id : PyStr
  description : PyStr
  registered_at : PyStr
deriving DecidableEq

/-- A row of the `tags` table (src/db.py lines 37-47). -/
structure TagState where
  tag_id : PyStr
  last_cnt : Int
  last_timestamp : PyStr
  first_seen : PyStr
  total_updates : Int
  created_at : PyStr
deriving DecidableEq

/-- A row of the `tag_history` table (src/db.py lines 50-59); the
autoincrement `id` is its position in the list and is not stored. -/
structure HistoryRecord where
  tag_id : PyStr
  cnt : Int
  timestamp : PyStr
  received_at : PyStr
deriving DecidableEq

/-- The three tables of the sqlite file behind `TagDatabase`. Rows are kept
in insertion order; `tags` and `registered_tags` are keyed by their first
column. -/
structure TagDatabase where
  registered_tags : List RegisteredTag
  tags : List TagState
  tag_history : List HistoryRecord
deriving DecidableEq

/-- `SELECT id FROM registered_tags WHERE id = ?` with `fetchone`
(src/db.py lines 97-100 and 123-126): the first matching row, if any. -/
def selectRegistered (db : TagDatabase) (tag_id : PyStr) : Option RegisteredTag :=
  db.registered_tags.find? (fun r => r.id == tag_id)

/-- `SELECT last_cnt, total_updates FROM tags WHERE tag_id = ?` with
`fetchone` (src/db.py lines 226-230): the first matching row, if any. -/
def selectTagState (db : TagDatabase) (tag_id : PyStr) : Option TagState :=
  db.tags.find? (fun r => r.tag_id == tag_id)

/-- Injected storage faults: one flag per sqlite primitive, consumed in
order; `true` means that primitive raises. An exhausted schedule injects no
further faults. -/
def takeFault : List Bool → Bool × List Bool
  | [] => (false, [])
  | b :: bs => (b, bs)

/-- `TagDatabase.is_tag_registered` (src/db.py lines 119-131). It wraps its
own query in `try/except` and answers `False` when the query raises; one
fault flag covers its connect-and-select. Returns the answer together with
the remaining fault schedule. -/
def is_tag_registered (faults : List Bool) (db : TagDatabase) (tag_id : PyStr) :
    Bool × List Bool :=
  let (f, rest) := takeFault faults
  if f then (false, rest)
  else ((selectRegistered db tag_id).isSome, rest)

/-- The `try` body of `TagDatabase.register_tag` (src/db.py lines 91-113):
connect, duplicate check, insert-and-commit; each primitive may raise
according to the fault schedule. `registered_at` stands for the
`datetime.now().isoformat()` taken inside the call. -/
def register_tag_body (faults : List Bool) (db : TagDatabase)
    (tag_id description registered_at : PyStr) :
    Except Unit (Bool × TagDatabase) :=
  let (f1, fs1) := takeFault faults        -- sqlite3.connect
  if f1 then .error () else
  let (f2, fs2) := takeFault fs1           -- SELECT id FROM registered_tags
  if f2 then .error () else
  if (selectRegistered db tag_id).isSome then
    .ok (false, db)
  else
    let (f3, _) := takeFault fs2           -- INSERT + commit
    if f3 then .error () else
    .ok (true,
      { db with registered_tags :=
          db.registered_tags ++ [⟨tag_id, description, registered_at⟩] })

/-- `TagDatabase.register_tag` (src/db.py lines 79-117): the
`except Exception: return False` wrapper. A raise inside the `with`
connection block rolls the open transaction back, so on failure the
database is unchanged. -/
def register_tag (faults : List Bool) (db : TagDatabase)
    (tag_id description registered_at : PyStr) : Bool × TagDatabase :=
  match register_tag_body faults db tag_id description registered_at with
  | .ok r => r
  | .error _ => (false, db)

/-- `UPDATE tags SET last_cnt = ?, last_timestamp = ?, total_updates =
total_updates + 1 WHERE tag_id = ?` (src/db.py lines 239-244). -/
def updateTagRow (tags : List TagState) (tag_id : PyStr) (cnt : Int)
    (timestamp : PyStr) : List TagState :=
  tags.map (fun r =>
    if r.tag_id == tag_id then
      { r with last_cnt := cnt, last_timestamp := timestamp,
               total_updates := r.total_updates + 1 }
    else r)

/-- The `try` body of `TagDatabase.store_tag_data` (src/db.py lines
215-270). `received_at` stands for the `datetime.now().isoformat()` taken
inside the call. Fault flags are consumed, in order, by:
`is_tag_registered`'s own query (caught internally), connect, the
`last_cnt` SELECT, the UPDATE or INSERT on `tags` (skipped when the
counter is unchanged, since no statement executes), the history INSERT,
and commit. -/
def store_tag_data_body (faults : List Bool) (db : TagDatabase)
    (tag_id : PyStr) (cnt : Int) (timestamp received_at : PyStr) :
    Except Unit (Bool × TagDatabase) :=
  let (reg, fs1) := is_tag_registered faults db tag_id
  if ! reg then .ok (false, db) else     -- unregistered: ignore, return False
  let (f2, fs2) := takeFault fs1         -- sqlite3.connect
  if f2 then .error () else
  let (f3, fs3) := takeFault fs2         -- SELECT last_cnt, total_updates
  if f3 then .error () else
  match selectTagState db tag_id with
  | some row =>
      if cnt = row.last_cnt then
        -- cnt_changed = False: no UPDATE is executed
        let (f5, fs5) := takeFault fs3   -- INSERT INTO tag_history
        if f5 then .error () else
        let (f6, _) := takeFault fs5     -- commit
        if f6 then .error () else
        .ok (false,
          { db with tag_history :=
              db.tag_history ++ [⟨tag_id, cnt, timestamp, received_at⟩] })
      else
        let (f4, fs4) := takeFault fs3   -- UPDATE tags
        if f4 then .error () else
        let (f5, fs5) := takeFault fs4   -- INSERT INTO tag_history
        if f5 then .error () else
        let (f6, _) := takeFault fs5     -- commit
        if f6 then .error () else
        .ok (true,
          { db with
              tags := updateTagRow db.tags tag_id cnt timestamp,
              tag_history :=
                db.tag_history ++ [⟨tag_id, cnt, timestamp, received_at⟩] })
  | none =>
      -- first observation: INSERT with total_updates = 1,
      -- first_seen = timestamp, created_at = received_at
      let (f4, fs4) := takeFault fs3     -- INSERT INTO tags
      if f4 then .error () else
      let (f5, fs5) := takeFault fs4     -- INSERT INTO tag_history
      if f5 then .error () else
      let (f6, _) := takeFault fs5       -- commit
      if f6 then .error () else
      .ok (true,
        { db with
            tags := db.tags ++ [⟨tag_id, cnt, timestamp, timestamp, 1, received_at⟩],
            tag_history :=
              db.tag_history ++ [⟨tag_id, cnt, timestamp, received_at⟩] })

/-- `TagDatabase.store_tag_data` (src/db.py lines 202-274): the
`except Exception: return False` wrapper; a raise inside the `with`
connection block rolls the open transaction back, leaving the database
unchanged. -/
def store_tag_data (faults : List Bool) (db : TagDatabase)
    (tag_id : PyStr) (cnt : Int) (timestamp received_at : PyStr) :
    Bool × TagDatabase :=
  match store_tag_data_body faults db tag_id cnt timestamp received_at with
  | .ok r => r
  | .error _ => (false, db)

/-- The two acknowledgment lines of the wire protocol
(src/api.py lines 260 and 263). -/
inductive SockResp where
  | ack
  | nack
deriving DecidableEq

/-- One iteration of the receive loop of `handle_socket_client`
(src/api.py lines 242-263) on one received piece of data `chunk`
(one beacon line, already decoded): the data is stripped; if it is empty
the loop breaks and the connection is closed; otherwise the line is
parsed — on success the store is called and `ACK` is sent whatever the
store answered, on failure `NACK` is sent — and the connection stays open.
Returns the updated parser and database, the response sent (`none` when
the loop breaks), and whether the connection remains open. -/
def handle_socket_data (p : TagParser) (db : TagDatabase)
    (received_at : PyStr) (chunk : PyStr) :
    TagParser × TagDatabase × Option SockResp × Bool :=
  let data := pyStrip chunk
  if data.isEmpty then (p, db, none, false)
  else
    match parse_tag_data p data with
    | (some td, p') =>
        let (_cnt_changed, db') :=
          store_tag_data [] db td.tag_id td.cnt td.timestamp received_at
        (p', db', some .ack, true)
    | (none, p') => (p', db, some .nack, true)

/-- A database holding one registered tag and nothing else, used to
evaluate the theorems on concrete inputs. -/
def regTid : PyStr := "ab123c4567ef".data

def regDb : TagDatabase :=
  ⟨[⟨regTid, "demo tag".data, "2025-10-03T13:00:00".data⟩], [], []⟩

def emptyDb : TagDatabase := ⟨[], [], []⟩

/-- `regDb` after a first beacon with counter 5: one registered tag whose
`tags` row holds `last_cnt = 5`. -/
def regDb1 : TagDatabase := (store_tag_data [] regDb regTid 5 "t1".data "r1".data).2

/-- The `tags` row held by `regDb1`. -/
def st0 : TagState := ⟨regTid, 5, "t1".data, "t1".data, 1, "r1".data⟩

/-- `n` successive `store_tag_data` calls with the same arguments
(no storage fault), as issued by a client repeating one beacon. -/
def ingestIter (n : Nat) (db : TagDatabase) (tid : PyStr) (c : Int)
    (ts rcv : PyStr) : TagDatabase :=
  match n with
  | 0 => db
  | Nat.succ k => ingestIter k (store_tag_data [] db tid c ts rcv).2 tid c ts rcv

/-- `SELECT ... WHERE tag_id = ?` after the UPDATE of src/db.py lines
239-244 returns the row with the three updated columns; the other columns
are untouched. -/
theorem find?_updateTagRow (tags : List TagState) (tid : PyStr) (c : Int)
    (ts : PyStr) (st : TagState)
    (h : tags.find? (fun r => r.tag_id == tid) = some st) :
    (updateTagRow tags tid c ts).find? (fun r => r.tag_id == tid) =
      some { st with last_cnt := c, last_timestamp := ts,
                     total_updates := st.total_updates + 1 } := by
  induction tags with
  | nil => simp [List.find?] at h
  | cons a l ih =>
    simp only [updateTagRow, List.map_cons]
    cases ha : a.tag_id == tid with
    | true =>
      simp only [List.find?, ha] at h
      obtain rfl : a = st := by injection h
      simp [List.find?, ha]
    | false =>
      simp only [List.find?, ha] at h
      have h' := ih h
      simp only [updateTagRow] at h'
      simp only [Bool.false_eq_true, if_false, List.find?, ha]
      exact h'

theorem find?_append_left_none {α : Type} (p : α → Bool) (l₁ l₂ : List α)
    (h : l₁.find? p = none) : (l₁ ++ l₂).find? p = l₂.find? p := by
  induction l₁ with
  | nil => rfl
  | cons a l ih =>
    cases ha : p a with
    | true => simp [List.find?, ha] at h
    | false =>
      simp only [List.find?, ha] at h
      simp [List.cons_append, List.find?, ha, ih h]

/-- Effect of `store_tag_data` (no storage fault) on a registered tag that
already has a `tags` row: a history record is always appended; the row is
updated exactly when the counter differs. -/
theorem store_existing_state (db : TagDatabase) (tid : PyStr) (c : Int)
    (ts rcv : PyStr) (st : TagState)
    (hreg : (selectRegistered db tid).isSome = true)
    (hst : selectTagState db tid = some st) :
    store_tag_data [] db tid c ts rcv =
      if c = st.last_cnt then
        (false, { db with tag_history := db.tag_history ++ [⟨tid, c, ts, rcv⟩] })
      else
        (true, { db with
            tags := updateTagRow db.tags tid c ts,
            tag_history := db.tag_history ++ [⟨tid, c, ts, rcv⟩] }) := by
  by_cases hc : c = st.last_cnt <;>
    simp [store_tag_data, store_tag_data_body, is_tag_registered,
      takeFault, hreg, hst, hc]

/-- Effect of `store_tag_data` (no storage fault) on a registered tag with
no `tags` row yet: the row is created with `total_updates = 1`,
`first_seen = timestamp`, `created_at = received_at`, a history record is
appended, and the call reports a change. -/
theorem store_first_observation (db : TagDatabase) (tid : PyStr) (c : Int)
    (ts rcv : PyStr)
    (hreg : (selectRegistered db tid).isSome = true)
    (hst : selectTagState db tid = none) :
    store_tag_data [] db tid c ts rcv =
      (true, { db with
          tags := db.tags ++ [⟨tid, c, ts, ts, 1, rcv⟩],
          tag_history := db.tag_history ++ [⟨tid, c, ts, rcv⟩] }) := by
  simp [store_tag_data, store_tag_data_body, is_tag_registered, takeFault, hreg, hst]

/-- `store_tag_data` on an unregistered tag is a pure no-op returning
`false`, under every fault schedule. -/
theorem store_unregistered_noop (faults : List Bool) (db : TagDatabase)
    (tid : PyStr) (c : Int) (ts rcv : PyStr)
    (hreg : selectRegistered db tid = none) :
    store_tag_data faults db tid c ts rcv = (false, db) := by
  cases faults with
  | nil => simp [store_tag_data, store_tag_data_body, is_tag_registered, takeFault, hreg]
  | cons b bs =>
    cases b <;>
      simp [store_tag_data, store_tag_data_body, is_tag_registered, takeFault, hreg]

/-- C1: the claim says a permissive-mode parser accepts any line
`TAG,<tagId>,<cnt>,<timestamp>` with an alphanumeric 4-32 character tagId
and a non-empty timestamp. The code applies the hex-and-`\d{14}.\d{3}`
`TAG_PATTERN` in both modes before the permissive validators can run, so
`TAG,MyTag123,100,2024-05-03T14:00:59.456Z` is rejected as malformed
(counted in `failed_parses`) even though both flexible-mode validators
accept its fields. -/
theorem permissive_line_rejected_by_strict_pattern :
    (parse_tag_data (TagParser.init false)
        "TAG,MyTag123,100,2024-05-03T14:00:59.456Z".data).1 = none ∧
    (parse_tag_data (TagParser.init false)
        "TAG,MyTag123,100,2024-05-03T14:00:59.456Z".data).2.stats = ⟨1, 0, 1, 0⟩ ∧
    validateTagId false "MyTag123".data = true ∧
    validateTimestamp false "2024-05-03T14:00:59.456Z".data = true := by
  decide

/-- C2: for a registered tag with an existing `tags` row holding
`last_cnt = L`, `store_tag_data` returns true iff the incoming counter
differs from `L` (counter decreases included, since `c` ranges over all
integers), and when it differs the row is updated to the new counter and
timestamp with `total_updates` incremented by exactly one. -/
theorem ingest_changed_iff_cnt_differs (db : TagDatabase) (tid : PyStr)
    (c : Int) (ts rcv : PyStr) (st : TagState)
    (hreg : (selectRegistered db tid).isSome = true)
    (hst : selectTagState db tid = some st) :
    ((store_tag_data [] db tid c ts rcv).1 = true ↔ c ≠ st.last_cnt) ∧
    (c ≠ st.last_cnt →
      selectTagState (store_tag_data [] db tid c ts rcv).2 tid =
        some { st with last_cnt := c, last_timestamp := ts,
                       total_updates := st.total_updates + 1 }) := by
  have hstep := store_existing_state db tid c ts rcv st hreg hst
  by_cases hc : c = st.last_cnt
  · rw [if_pos hc] at hstep
    refine ⟨?_, fun hne => absurd hc hne⟩
    rw [hstep]
    simp [hc]
  · rw [if_neg hc] at hstep
    refine ⟨?_, fun _ => ?_⟩
    · rw [hstep]
      simpa using hc
    · rw [hstep]
      simp only [selectTagState] at hst ⊢
      exact find?_updateTagRow db.tags tid c ts st hst

theorem ingest_changed_iff_cnt_differs_witness :
    (selectRegistered regDb regTid).isSome = true ∧
    selectTagState regDb1 regTid = some ⟨regTid, 5, "t1".data, "t1".data, 1, "r1".data⟩ ∧
    ((store_tag_data [] regDb1 regTid 3 "t2".data "r2".data).1 = true ↔
      (3 : Int) ≠ (5 : Int)) ∧
    selectTagState (store_tag_data [] regDb1 regTid 3 "t2".data "r2".data).2 regTid =
      some ⟨regTid, 3, "t2".data, "t1".data, 2, "r1".data⟩ :=
  ⟨by decide, by decide,
   (ingest_changed_iff_cnt_differs regDb1 regTid 3 "t2".data "r2".data
      ⟨regTid, 5, "t1".data, "t1".data, 1, "r1".data⟩ (by decide) (by decide)).1,
   (ingest_changed_iff_cnt_differs regDb1 regTid 3 "t2".data "r2".data
      ⟨regTid, 5, "t1".data, "t1".data, 1, "r1".data⟩ (by decide) (by decide)).2
     (by decide)⟩

/-- C3: for a registered tag whose row holds `last_cnt = N`, any number of
`store_tag_data` calls with counter `N` return false every time, leave the
`tags` row (in particular `total_updates`) unchanged, and append exactly
one history record per call. -/
theorem ingest_unchanged_idempotent (n : Nat) (db : TagDatabase) (tid : PyStr)
    (ts rcv : PyStr) (st : TagState)
    (hreg : (selectRegistered db tid).isSome = true)
    (hst : selectTagState db tid = some st) :
    (store_tag_data [] (ingestIter n db tid st.last_cnt ts rcv) tid
        st.last_cnt ts rcv).1 = false ∧
    selectTagState (ingestIter n db tid st.last_cnt ts rcv) tid = some st ∧
    (ingestIter n db tid st.last_cnt ts rcv).tag_history =
      db.tag_history ++ List.replicate n ⟨tid, st.last_cnt, ts, rcv⟩ := by
  induction n generalizing db with
  | zero =>
    have hstep := store_existing_state db tid st.last_cnt ts rcv st hreg hst
    rw [if_pos rfl] at hstep
    exact ⟨by rw [ingestIter, hstep], hst, by simp [ingestIter]⟩
  | succ k ih =>
    have hstep := store_existing_state db tid st.last_cnt ts rcv st hreg hst
    rw [if_pos rfl] at hstep
    have hiter : ingestIter (k + 1) db tid st.last_cnt ts rcv =
        ingestIter k (store_tag_data [] db tid st.last_cnt ts rcv).2 tid
          st.last_cnt ts rcv := rfl
    rw [hiter, hstep]
    have ihk := ih { db with tag_history :=
        db.tag_history ++ [⟨tid, st.last_cnt, ts, rcv⟩] } hreg hst
    refine ⟨ihk.1, ihk.2.1, ?_⟩
    rw [ihk.2.2]
    simp [List.replicate_succ]

theorem ingest_unchanged_idempotent_witness :
    (selectRegistered regDb1 regTid).isSome = true ∧
    selectTagState regDb1 regTid = some st0 ∧
    (store_tag_data [] (ingestIter 2 regDb1 regTid 5 "t2".data "r2".data) regTid
        5 "t2".data "r2".data).1 = false ∧
    selectTagState (ingestIter 2 regDb1 regTid 5 "t2".data "r2".data) regTid = some st0 ∧
    (ingestIter 2 regDb1 regTid 5 "t2".data "r2".data).tag_history =
      regDb1.tag_history ++ List.replicate 2 ⟨regTid, 5, "t2".data, "r2".data⟩ :=
  ⟨by decide, by decide,
   (ingest_unchanged_idempotent 2 regDb1 regTid "t2".data "r2".data st0
      (by decide) (by decide)).1,
   (ingest_unchanged_idempotent 2 regDb1 regTid "t2".data "r2".data st0
      (by decide) (by decide)).2.1,
   (ingest_unchanged_idempotent 2 regDb1 regTid "t2".data "r2".data st0
      (by decide) (by decide)).2.2⟩

/-- C4: for a registered tag with no `tags` row yet, the first
`store_tag_data` call returns true whatever the counter value is, and
creates the row with `total_updates = 1` (with `first_seen` set to the
beacon timestamp and `created_at` to the ingestion instant). -/
theorem first_ingest_always_change (db : TagDatabase) (tid : PyStr) (c : Int)
    (ts rcv : PyStr)
    (hreg : (selectRegistered db tid).isSome = true)
    (hst : selectTagState db tid = none) :
    (store_tag_data [] db tid c ts rcv).1 = true ∧
    selectTagState (store_tag_data [] db tid c ts rcv).2 tid =
      some ⟨tid, c, ts, ts, 1, rcv⟩ := by
  have hstep := store_first_observation db tid c ts rcv hreg hst
  refine ⟨by rw [hstep], ?_⟩
  rw [hstep]
  simp only [selectTagState] at hst ⊢
  rw [find?_append_left_none _ _ _ hst]
  simp [List.find?]

theorem first_ingest_always_change_witness :
    (selectRegistered regDb regTid).isSome = true ∧
    selectTagState regDb regTid = none ∧
    (store_tag_data [] regDb regTid 0 "t1".data "r1".data).1 = true ∧
    selectTagState (store_tag_data [] regDb regTid 0 "t1".data "r1".data).2 regTid =
      some ⟨regTid, 0, "t1".data, "t1".data, 1, "r1".data⟩ :=
  ⟨by decide, by decide,
   (first_ingest_always_change regDb regTid 0 "t1".data "r1".data
      (by decide) (by decide)).1,
   (first_ingest_always_change regDb regTid 0 "t1".data "r1".data
      (by decide) (by decide)).2⟩

/-- C5: for a tag with no `registered_tags` row, `store_tag_data` returns
false and performs no write at all — the returned database is exactly the
input one — under every fault schedule. -/
theorem unregistered_ingest_is_noop (faults : List Bool) (db : TagDatabase)
    (tid : PyStr) (c : Int) (ts rcv : PyStr)
    (hreg : selectRegistered db tid = none) :
    store_tag_data faults db tid c ts rcv = (false, db) :=
  store_unregistered_noop faults db tid c ts rcv hreg

theorem unregistered_ingest_is_noop_witness :
    selectRegistered emptyDb "deadbeef".data = none ∧
    store_tag_data [] emptyDb "deadbeef".data 7 "t".data "r".data = (false, emptyDb) :=
  ⟨by decide,
   unregistered_ingest_is_noop [] emptyDb "deadbeef".data 7 "t".data "r".data (by decide)⟩

/-- C9: a `store_tag_data` call on a tag with an existing `tags` row never
modifies that row's `first_seen` or `created_at` (the UPDATE of src/db.py
lines 239-244 only touches `last_cnt`, `last_timestamp`, `total_updates`),
and when the incoming counter equals `last_cnt` the whole `tags` table is
left unchanged. -/
theorem ingest_preserves_creation_fields (db : TagDatabase) (tid : PyStr)
    (c : Int) (ts rcv : PyStr) (st : TagState)
    (hst : selectTagState db tid = some st) :
    (∀ st', selectTagState (store_tag_data [] db tid c ts rcv).2 tid = some st' →
        st'.first_seen = st.first_seen ∧ st'.created_at = st.created_at) ∧
    (c = st.last_cnt → (store_tag_data [] db tid c ts rcv).2.tags = db.tags) := by
  cases hreg : (selectRegistered db tid).isSome with
  | false =>
    have hnone : selectRegistered db tid = none := by
      cases hr : selectRegistered db tid
      · rfl
      · rw [hr] at hreg; simp at hreg
    have hstep := store_unregistered_noop [] db tid c ts rcv hnone
    refine ⟨fun st' h' => ?_, fun _ => by rw [hstep]⟩
    rw [hstep] at h'
    simp only at h'
    rw [hst] at h'
    obtain rfl : st = st' := by injection h'
    exact ⟨rfl, rfl⟩
  | true =>
    by_cases hc : c = st.last_cnt
    · have hstep := store_existing_state db tid c ts rcv st hreg hst
      rw [if_pos hc] at hstep
      refine ⟨fun st' h' => ?_, fun _ => by rw [hstep]⟩
      rw [hstep] at h'
      simp only [selectTagState] at h' hst
      rw [hst] at h'
      obtain rfl : st = st' := by injection h'
      exact ⟨rfl, rfl⟩
    · have hstep := store_existing_state db tid c ts rcv st hreg hst
      rw [if_neg hc] at hstep
      refine ⟨fun st' h' => ?_, fun heq => absurd heq hc⟩
      rw [hstep] at h'
      simp only [selectTagState] at h' hst
      rw [find?_updateTagRow db.tags tid c ts st hst] at h'
      obtain rfl : _ = st' := by injection h'
      exact ⟨rfl, rfl⟩

theorem ingest_preserves_creation_fields_witness :
    selectTagState regDb1 regTid = some st0 ∧
    (∀ st', selectTagState (store_tag_data [] regDb1 regTid 9 "t9".data "r9".data).2
        regTid = some st' →
        st'.first_seen = st0.first_seen ∧ st'.created_at = st0.created_at) ∧
    (store_tag_data [] regDb1 regTid 5 "t9".data "r9".data).2.tags = regDb1.tags :=
  ⟨by decide,
   (ingest_preserves_creation_fields regDb1 regTid 9 "t9".data "r9".data st0
      (by decide)).1,
   (ingest_preserves_creation_fields regDb1 regTid 5 "t9".data "r9".data st0
      (by decide)).2 (by decide)⟩

/-- Branch analysis of `parse_tag_data`: every call lands in exactly one of
the three stats outcomes — grammar mismatch (`failed_parses`), validation
failure (`validation_errors`, shared by the counter, tag-id and timestamp
checks), or success (`successful_parses`) — and in each case adds one to
`total_parsed`. -/
theorem parse_stats_cases (p : TagParser) (raw : PyStr) :
    ((parse_tag_data p raw).1 = none ∧ tagPatternMatch (pyStrip raw) = none ∧
      (parse_tag_data p raw).2.stats =
        { p.stats with total_parsed := p.stats.total_parsed + 1,
                       failed_parses := p.stats.failed_parses + 1 }) ∨
    ((parse_tag_data p raw).1 = none ∧
      (∃ g, tagPatternMatch (pyStrip raw) = some g) ∧
      (parse_tag_data p raw).2.stats =
        { p.stats with total_parsed := p.stats.total_parsed + 1,
                       validation_errors := p.stats.validation_errors + 1 }) ∨
    ((∃ td, (parse_tag_data p raw).1 = some td) ∧
      (∃ g, tagPatternMatch (pyStrip raw) = some g) ∧
      (parse_tag_data p raw).2.stats =
        { p.stats with total_parsed := p.stats.total_parsed + 1,
                       successful_parses := p.stats.successful_parses + 1 }) := by
  rcases htm : tagPatternMatch (pyStrip raw) with _ | ⟨tg, cs, tss⟩
  · left
    refine ⟨?_, rfl, ?_⟩ <;> simp [parse_tag_data, htm]
  · rcases hvc : validateCnt cs with _ | c
    · right; left
      refine ⟨?_, ⟨_, rfl⟩, ?_⟩ <;> simp [parse_tag_data, htm, hvc]
    · by_cases hid : validateTagId p.strict_mode tg
      · by_cases hts : (p.strict_mode && ! validateTimestamp p.strict_mode tss) = true
        · right; left
          refine ⟨?_, ⟨_, rfl⟩, ?_⟩ <;> simp [parse_tag_data, htm, hvc, hid, hts]
        · right; right
          refine ⟨?_, ⟨_, rfl⟩, ?_⟩ <;> simp [parse_tag_data, htm, hvc, hid, hts]
      · right; left
        refine ⟨?_, ⟨_, rfl⟩, ?_⟩ <;> simp [parse_tag_data, htm, hvc, hid]

/-- C6 counterexample: the claim says the four rejection reasons are four
separately retrievable counters. An invalid-tag-id rejection (`abc1` is
hex but 4 < 8 characters, so `_validate_tag_id` fails) and an
invalid-timestamp rejection (month 13 fails the calendar check while the
tag id is valid) leave the stats in the identical state `⟨1, 0, 0, 1⟩`:
the three validation reasons share the single `validation_errors` counter
and are not retrievable per reason. -/
theorem validation_reasons_share_one_counter :
    (parse_tag_data (TagParser.init true) "TAG,abc1,5,20251003140059.456".data).1 = none ∧
    (parse_tag_data (TagParser.init true) "TAG,fa451f0755d8,5,20251399140059.456".data).1 = none ∧
    validateTagId true "abc1".data = false ∧
    validateTagId true "fa451f0755d8".data = true ∧
    validateTimestamp true "20251003140059.456".data = true ∧
    validateTimestamp true "20251399140059.456".data = false ∧
    (parse_tag_data (TagParser.init true) "TAG,abc1,5,20251003140059.456".data).2.stats =
      (parse_tag_data (TagParser.init true) "TAG,fa451f0755d8,5,20251399140059.456".data).2.stats := by
  decide

/-- C6 (amended): the parser counts rejections in exactly two failure
counters — grammar mismatches in `failed_parses`, and the three validation
reasons (invalid counter, invalid tag id, invalid timestamp) merged in
`validation_errors` — alongside `total_parsed` and `successful_parses`. -/
theorem failure_counters_by_reason (p : TagParser) (raw : PyStr) :
    (tagPatternMatch (pyStrip raw) = none →
      (parse_tag_data p raw).2.stats =
        { p.stats with total_parsed := p.stats.total_parsed + 1,
                       failed_parses := p.stats.failed_parses + 1 }) ∧
    (∀ g, tagPatternMatch (pyStrip raw) = some g →
      (parse_tag_data p raw).1 = none →
      (parse_tag_data p raw).2.stats =
        { p.stats with total_parsed := p.stats.total_parsed + 1,
                       validation_errors := p.stats.validation_errors + 1 }) ∧
    (∀ td, (parse_tag_data p raw).1 = some td →
      (parse_tag_data p raw).2.stats =
        { p.stats with total_parsed := p.stats.total_parsed + 1,
                       successful_parses := p.stats.successful_parses + 1 }) := by
  rcases parse_stats_cases p raw with ⟨h1, h2, h3⟩ | ⟨h1, ⟨g, hg⟩, h3⟩ |
    ⟨⟨td, htd⟩, ⟨g, hg⟩, h3⟩
  · refine ⟨fun _ => h3, fun g' hg' _ => ?_, fun td' htd' => ?_⟩
    · rw [h2] at hg'; exact Option.noConfusion hg'
    · rw [h1] at htd'; exact Option.noConfusion htd'
  · refine ⟨fun hn => ?_, fun g' hg' _ => h3, fun td' htd' => ?_⟩
    · rw [hn] at hg; exact Option.noConfusion hg
    · rw [h1] at htd'; exact Option.noConfusion htd'
  · refine ⟨fun hn => ?_, fun g' hg' hnone => ?_, fun td' _ => h3⟩
    · rw [hn] at hg; exact Option.noConfusion hg
    · rw [hnone] at htd; exact Option.noConfusion htd

theorem failure_counters_by_reason_witness :
    tagPatternMatch (pyStrip "hello".data) = none ∧
    (parse_tag_data (TagParser.init true) "hello".data).2.stats = ⟨1, 0, 1, 0⟩ ∧
    (parse_tag_data (TagParser.init true) "TAG,abc1,5,20251003140059.456".data).2.stats =
      ⟨1, 0, 0, 1⟩ :=
  ⟨by decide,
   by
    rw [(failure_counters_by_reason (TagParser.init true) "hello".data).1 (by decide)]
    rfl,
   by
    rw [(failure_counters_by_reason (TagParser.init true)
          "TAG,abc1,5,20251003140059.456".data).2.1
        ("abc1".data, "5".data, "20251003140059.456".data) (by decide) (by decide)]
    rfl⟩

/-- C7 counterexample: the claim says every non-empty line that fails to
parse yields `NACK` with the connection kept open. The line `" "` (one
space) is a non-empty line and parses to a failure, yet the handler strips
it to the empty string, breaks out of the loop, sends nothing, and the
connection closes. -/
theorem whitespace_line_drops_connection :
    (" ".data ≠ ([] : PyStr)) ∧
    (parse_tag_data (TagParser.init true) " ".data).1 = none ∧
    handle_socket_data (TagParser.init true) emptyDb "r".data " ".data =
      (TagParser.init true, emptyDb, none, false) := by
  decide

/-- C7 (amended): for every received line that is non-empty after
stripping whitespace, a parse failure yields `NACK` and a parse success
yields `ACK` — irrespective of the changed/unchanged answer of the store,
which the handler discards — and the connection stays open in both cases.
(A line that strips to empty instead breaks the loop and closes the
connection.) -/
theorem nonblank_line_ack_or_nack (p : TagParser) (db : TagDatabase)
    (rcv chunk : PyStr) (h : pyStrip chunk ≠ []) :
    ((parse_tag_data p (pyStrip chunk)).1 = none →
      handle_socket_data p db rcv chunk =
        ((parse_tag_data p (pyStrip chunk)).2, db, some SockResp.nack, true)) ∧
    (∀ td, (parse_tag_data p (pyStrip chunk)).1 = some td →
      handle_socket_data p db rcv chunk =
        ((parse_tag_data p (pyStrip chunk)).2,
         (store_tag_data [] db td.tag_id td.cnt td.timestamp rcv).2,
         some SockResp.ack, true)) := by
  have hne : (pyStrip chunk).isEmpty = false := by
    cases hs : pyStrip chunk
    · exact absurd hs h
    · rfl
  rcases hp : parse_tag_data p (pyStrip chunk) with ⟨o, p'⟩
  cases o with
  | none =>
    refine ⟨fun _ => ?_, fun td htd => ?_⟩
    · simp [handle_socket_data, hne, hp]
    · exact Option.noConfusion htd
  | some td0 =>
    refine ⟨fun hnone => ?_, fun td htd => ?_⟩
    · exact Option.noConfusion hnone
    · replace htd : some td0 = some td := htd
      obtain rfl : td0 = td := by injection htd
      simp [handle_socket_data, hne, hp]

theorem nonblank_line_ack_or_nack_witness :
    pyStrip "hello".data ≠ [] ∧
    handle_socket_data (TagParser.init true) emptyDb "r".data "hello".data =
      ((parse_tag_data (TagParser.init true) (pyStrip "hello".data)).2, emptyDb,
        some SockResp.nack, true) :=
  ⟨by decide,
   (nonblank_line_ack_or_nack (TagParser.init true) emptyDb "r".data "hello".data
      (by decide)).1 (by decide)⟩

/-- C8: the two mutating store calls never propagate a storage exception
to their caller: whenever the try-block body raises, under any fault
schedule, the `except Exception` wrapper returns false with the
(rolled-back) database unchanged, so the caller observes the operation as
not applied and the process keeps running. (As total Lean functions,
`register_tag` and `store_tag_data` cannot raise at all.) -/
theorem storage_failure_returns_false (faults : List Bool) (db : TagDatabase)
    (tid desc rat : PyStr) (c : Int) (ts rcv : PyStr) :
    (register_tag_body faults db tid desc rat = .error () →
      register_tag faults db tid desc rat = (false, db)) ∧
    (store_tag_data_body faults db tid c ts rcv = .error () →
      store_tag_data faults db tid c ts rcv = (false, db)) := by
  constructor
  · intro h
    simp [register_tag, h]
  · intro h
    simp [store_tag_data, h]

theorem storage_failure_returns_false_witness :
    register_tag_body [true] regDb "00ffaa11".data "d".data "r0".data = .error () ∧
    register_tag [true] regDb "00ffaa11".data "d".data "r0".data = (false, regDb) ∧
    store_tag_data_body [false, true] regDb regTid 1 "t".data "r".data = .error () ∧
    store_tag_data [false, true] regDb regTid 1 "t".data "r".data = (false, regDb) :=
  ⟨rfl,
   (storage_failure_returns_false [true] regDb "00ffaa11".data "d".data "r0".data
      1 "t".data "r".data).1 rfl,
   rfl,
   (storage_failure_returns_false [false, true] regDb regTid "d".data "r0".data
      1 "t".data "r".data).2 rfl⟩

/-- C10: every `parse_tag_data` call adds one to `total_parsed` and one to
exactly one of the three outcome counters, so the invariant
`total_parsed = successful_parses + failed_parses + validation_errors`
holds after every call when starting from construction (`TagParser.init`)
or from the last `reset_stats`, both of which establish it. -/
theorem parse_stats_accounting (p : TagParser) (raw : PyStr) :
    (parse_tag_data p raw).2.stats.total_parsed = p.stats.total_parsed + 1 ∧
    (((parse_tag_data p raw).2.stats.successful_parses = p.stats.successful_parses + 1 ∧
      (parse_tag_data p raw).2.stats.failed_parses = p.stats.failed_parses ∧
      (parse_tag_data p raw).2.stats.validation_errors = p.stats.validation_errors) ∨
     ((parse_tag_data p raw).2.stats.failed_parses = p.stats.failed_parses + 1 ∧
      (parse_tag_data p raw).2.stats.successful_parses = p.stats.successful_parses ∧
      (parse_tag_data p raw).2.stats.validation_errors = p.stats.validation_errors) ∨
     ((parse_tag_data p raw).2.stats.validation_errors = p.stats.validation_errors + 1 ∧
      (parse_tag_data p raw).2.stats.successful_parses = p.stats.successful_parses ∧
      (parse_tag_data p raw).2.stats.failed_parses = p.stats.failed_parses)) ∧
    (p.stats.total_parsed =
        p.stats.successful_parses + p.stats.failed_parses + p.stats.validation_errors →
      (parse_tag_data p raw).2.stats.total_parsed =
        (parse_tag_data p raw).2.stats.successful_parses +
        (parse_tag_data p raw).2.stats.failed_parses +
        (parse_tag_data p raw).2.stats.validation_errors) ∧
    (∀ b, (TagParser.init b).stats.total_parsed =
        (TagParser.init b).stats.successful_parses +
        (TagParser.init b).stats.failed_parses +
        (TagParser.init b).stats.validation_errors) ∧
    (∀ q, (reset_stats q).stats.total_parsed =
        (reset_stats q).stats.successful_parses +
        (reset_stats q).stats.failed_parses +
        (reset_stats q).stats.validation_errors) := by
  rcases parse_stats_cases p raw with ⟨_, _, h3⟩ | ⟨_, _, h3⟩ | ⟨_, _, h3⟩ <;>
    rw [h3] <;>
    refine ⟨by simp, ?_, fun hinv => by simp; omega, fun b => rfl, fun q => rfl⟩
  · exact Or.inr (Or.inl (by simp))
  · exact Or.inr (Or.inr (by simp))
  · exact Or.inl (by simp)

theorem parse_stats_accounting_witness :
    (TagParser.init true).stats.total_parsed =
      (TagParser.init true).stats.successful_parses +
      (TagParser.init true).stats.failed_parses +
      (TagParser.init true).stats.validation_errors ∧
    (parse_tag_data (TagParser.init true) "hello".data).2.stats.total_parsed =
      (parse_tag_data (TagParser.init true) "hello".data).2.stats.successful_parses +
      (parse_tag_data (TagParser.init true) "hello".data).2.stats.failed_parses +
      (parse_tag_data (TagParser.init true) "hello".data).2.stats.validation_errors :=
  ⟨(parse_stats_accounting (TagParser.init true) "hello".data).2.2.2.1 true,
   (parse_stats_accounting (TagParser.init true) "hello".data).2.2.1 (by decide)⟩
